import Mathlib

/-!
Shallow embedding of the replay/windowing engine of `src/app.py`
(conflict early-warning replay dashboard).

Numeric values (indicators, coordinates, timestamps) are modelled as exact
rationals; timestamps are `Option ℚ` minutes, with `none` standing for a
null/NaT timestamp.  Pandas frames become `List Event`; the Streamlit
session state becomes an explicit `AppState` record.
-/

namespace ConflictDemo

/-- One observation row of the data set: `timestamp, region, lat, lon` and the
four raw indicators, exactly the required columns of `ensure_columns`. -/
structure Event where
  timestamp : Option ℚ
  region : String
  lat : ℚ
  lon : ℚ
  risk_score : ℚ
  activity_index : ℚ
  supply_pressure : ℚ
  morale_index : ℚ
deriving DecidableEq, Repr

/-- `np.clip(x, lo, hi)` for `lo ≤ hi`: values below `lo` become `lo`,
values above `hi` become `hi`.  (Written as an if-chain so that concrete
instances evaluate by `decide`; `clip_eq_max_min` gives the usual
`min`/`max` form.) -/
def clip (x lo hi : ℚ) : ℚ := if x < lo then lo else if hi < x then hi else x

/-- `compute_composite` from `app.py`:
`comp = 0.45*rii + 0.25*infra + 0.20*supply_relief + 0.10*env`, where
`infra = 100 - supply_pressure*0.6`, `supply_relief = supply_pressure`,
`env = clip(100 - morale_index, 0, 100)`, clipped to `[0, 100]`. -/
def compute_composite (e : Event) : ℚ :=
  let rii := e.risk_score
  let infra := 100 - e.supply_pressure * 0.6
  let supply_relief := e.supply_pressure
  let env := clip (100 - e.morale_index) 0 100
  clip (0.45 * rii + 0.25 * infra + 0.20 * supply_relief + 0.10 * env) 0 100

/-- The alert filter of `app.py`: `composite > 80 or risk_score > 85`. -/
def alert_qualifies (e : Event) : Bool :=
  decide (80 < compute_composite e) || decide (85 < e.risk_score)

/-- `DataFrame.tail n`: the last `n` rows. -/
def tailN (n : ℕ) (l : List Event) : List Event := l.drop (l.length - n)

/-- The alerts list of `app.py`: filter by `alert_qualifies`, keep the last
ten rows (`.tail(10)`). -/
def alerts (l : List Event) : List Event := tailN 10 (l.filter alert_qualifies)

/-- `rows_per_minute` from `app.py`: one row per region per minute in dense
mode, `max(regions_count // 15, 1)` in raw mode. -/
def rows_per_minute (useDense : Bool) (regionsCount : ℕ) : ℕ :=
  if useDense then regionsCount else max (regionsCount / 15) 1

/-- `minutes_to_rows` from `app.py`: `mins * regions_count` in dense mode,
`max((mins // 15) * regions_count, 0)` in raw mode. -/
def minutes_to_rows (useDense : Bool) (mins regionsCount : ℕ) : ℕ :=
  if useDense then mins * regionsCount else max ((mins / 15) * regionsCount) 0

/-- The Streamlit session state of `app.py` that the replay engine touches:
the cached raw and dense series, the mutable working copy, the active
granularity, the replay cursor and the running flag. -/
structure AppState where
  df_raw : List Event
  df_dense : List Event
  df_work : List Event
  use_dense : Bool
  replay_index : ℕ
  running : Bool
  last_mode : Option String
deriving Repr

/-- Pandas `Series.min()` over the timestamp column: minimum of the non-null
timestamps, `none` when every timestamp is null. -/
def min_timestamp : List Event → Option ℚ
  | [] => none
  | e :: l =>
    match e.timestamp, min_timestamp l with
    | some t, some m => some (min t m)
    | some t, none => some t
    | none, acc => acc

/-- Pandas `Series.max()` over the timestamp column: maximum of the non-null
timestamps, `none` when every timestamp is null. -/
def max_timestamp : List Event → Option ℚ
  | [] => none
  | e :: l =>
    match e.timestamp, max_timestamp l with
    | some t, some m => some (max t m)
    | some t, none => some t
    | none, acc => acc

/-- `now_timestamp` from `app.py`: the minimum timestamp when nothing has
been revealed yet, otherwise the timestamp at row
`min(replay_index - 1, len(df_work) - 1)` of the working store. -/
def now_timestamp (s : AppState) : Option ℚ :=
  if s.replay_index = 0 then min_timestamp s.df_work
  else
    match s.df_work[min (s.replay_index - 1) (s.df_work.length - 1)]? with
    | some e => e.timestamp
    | none => none

/-- The row mask of the inject handler: `region == hot_region` and
`t0 <= timestamp <= t1`; a null timestamp never matches (pandas `NaT`
comparisons are false). -/
def matches_inject (region : String) (t0 t1 : ℚ) (e : Event) : Bool :=
  e.region == region &&
    (match e.timestamp with
     | some t => decide (t0 ≤ t) && decide (t ≤ t1)
     | none => false)

/-- The in-place update of one masked row by the inject handler:
`risk_score = clip(risk_score + boost, 0, 100)`,
`supply_pressure = clip(supply_pressure - boost*0.4, 0, 100)`,
`morale_index = clip(morale_index - boost*0.2, 0, 100)`. -/
def apply_hotspot (boost : ℚ) (e : Event) : Event :=
  { e with
    risk_score := clip (e.risk_score + boost) 0 100
    supply_pressure := clip (e.supply_pressure - boost * 0.4) 0 100
    morale_index := clip (e.morale_index - boost * 0.2) 0 100 }

/-- The Inject button handler of `app.py`: anchor `t0 = now_timestamp()`;
when `t0` is null, warn and leave the state untouched; otherwise update in
place every row of the working store matching the region and the interval
`[t0, t0 + durMins]`, and report success.  Returns the new state together
with the sidebar message. -/
def inject (s : AppState) (region : String) (durMins boost : ℚ) :
    AppState × String :=
  match now_timestamp s with
  | none => (s, "Start the replay first.")
  | some t0 =>
    let t1 := t0 + durMins
    ({ s with
        df_work := s.df_work.map (fun e =>
          if matches_inject region t0 t1 e then apply_hotspot boost e else e) },
     "Injected hotspot in " ++ region ++ ".")

/-- The window filter of `app.py`'s current-view block: when some timestamp
in the revealed prefix is non-null, keep only rows with
`timestamp >= t_max - window` (null timestamps drop out); when every
timestamp is null, the prefix passes through unchanged. -/
def select_window (l : List Event) (window : ℚ) : List Event :=
  match max_timestamp l with
  | none => l
  | some tMax =>
    l.filter (fun e =>
      match e.timestamp with
      | some t => decide (tMax - window ≤ t)
      | none => false)

/-- `df_work["region"].nunique()`: the number of distinct regions. -/
def regions_count (l : List Event) : ℕ := (l.map Event.region).dedup.length

/-- The Reset button handler of `app.py`: halt and rewind to 0. -/
def reset_state (s : AppState) : AppState :=
  { s with running := false, replay_index := 0 }

/-- The preload-first-view block of `app.py`: when the cursor sits at 0 it
is advanced to `min(minutes_to_rows(10, regions_count), total_rows)` before
the view is built. -/
def preload (s : AppState) : AppState :=
  if s.replay_index = 0 then
    let n := min (minutes_to_rows s.use_dense 10 (regions_count s.df_work)) s.df_work.length
    { s with replay_index := n }
  else s

/-- `set_active_mode` from `app.py`: the working store becomes a fresh copy
of the cached series of the requested granularity and the cursor rewinds
to 0. -/
def set_active_mode (s : AppState) (useDense : Bool) : AppState :=
  { s with
    df_work := if useDense then s.df_dense else s.df_raw
    use_dense := useDense
    last_mode := some (if useDense then "dense" else "raw")
    replay_index := 0 }

/-- The cursor-moving actions of the sidebar: the tick of the auto-play
loop (parameterised by the minutes-per-tick slider), the fast-forward
buttons, and Start/Stop. -/
inductive CursorOp where
  | tick : ℕ → CursorOp
  | fastForward : ℕ → CursorOp
  | start : CursorOp
  | stop : CursorOp
deriving Repr

/-- The replay cursor seen in isolation: its position and the running
flag. -/
structure Cursor where
  pos : ℕ
  running : Bool
deriving Repr, DecidableEq

/-- One cursor action on a fixed store of `total` rows:
tick adds `rows_per_tick = max(minutes_to_rows(mins, rc), 1)` while
running, fast-forward adds `minutes_to_rows(mins, rc)` in any state, both
clamped by `min(..., total)`; Start/Stop only toggle the flag. -/
def cursor_step (useDense : Bool) (rc total : ℕ) (op : CursorOp)
    (c : Cursor) : Cursor :=
  match op with
  | .start => { c with running := true }
  | .stop => { c with running := false }
  | .fastForward mins =>
    { c with pos := min (c.pos + minutes_to_rows useDense mins rc) total }
  | .tick mins =>
    if c.running then
      { c with pos := min (c.pos + max (minutes_to_rows useDense mins rc) 1) total }
    else c

/-- A whole sequence of cursor actions, applied left to right. -/
def cursor_run (useDense : Bool) (rc total : ℕ) (ops : List CursorOp)
    (c : Cursor) : Cursor :=
  ops.foldl (fun c op => cursor_step useDense rc total op c) c

/-! ### Concrete sample data, used by counterexamples and witnesses -/

/-- An event whose composite score evaluates to exactly 76 while its raw
risk is 50 (the supply pressure is out of the nominal range, which the
loader does not enforce). -/
def ev76 : Event := ⟨some 0, "A", 0, 0, 50, 0, 570, 100⟩

/-- An event whose composite score evaluates to exactly 81 with raw risk
50. -/
def ev81 : Event := ⟨some 0, "A", 0, 0, 50, 0, 670, 100⟩

/-- A nominal-range event of region "A" at minute 0. -/
def evA0 : Event := ⟨some 0, "A", 0, 0, 10, 0, 50, 50⟩

/-- A nominal-range event of region "A" at minute 5. -/
def evA5 : Event := ⟨some 5, "A", 0, 0, 10, 0, 50, 50⟩

/-- An event with an out-of-range supply pressure of 200. -/
def evHiSupply : Event := ⟨some 0, "A", 0, 0, 10, 0, 200, 50⟩

/-- An event whose timestamp failed to parse (null/NaT). -/
def evNaT : Event := ⟨none, "A", 0, 0, 10, 0, 50, 50⟩

/-- A state whose cursor has revealed exactly the first of two rows of
region "A". -/
def s1 : AppState := ⟨[], [], [evA0, evA5], true, 1, false, none⟩

/-- A state with a single revealed row carrying supply pressure 200. -/
def s7 : AppState := ⟨[], [], [evHiSupply], true, 1, false, none⟩

/-- A one-region dense-mode state with cursor at 4 and the replay
running. -/
def s8 : AppState := ⟨[], [], [evA0], true, 4, true, none⟩

/-- A state whose working store has only null timestamps and whose cursor
sits at 0, so there is no "now" to anchor an injection to. -/
def sNaT : AppState := ⟨[], [], [evNaT], true, 0, false, none⟩

/-! ### Helper lemmas -/

/-- For `lo ≤ hi`, `clip` agrees with `np.clip`'s `min (max x lo) hi`. -/
theorem clip_eq_max_min (x lo hi : ℚ) (h : lo ≤ hi) :
    clip x lo hi = min (max x lo) hi := by
  unfold clip
  rcases lt_trichotomy x lo with h1 | h1 | h1 <;>
    simp [min_def, max_def, le_of_lt, h1] <;> split_ifs <;> try rfl
  all_goals first
  | (exact absurd (le_trans h (by assumption)) (not_le_of_lt h1))
  | omega
  | linarith

/-- A value clipped to `[0, 100]` lies in `[0, 100]`. -/
theorem clip_zero_hundred_bounds (x : ℚ) :
    0 ≤ clip x 0 100 ∧ clip x 0 100 ≤ 100 := by
  unfold clip
  split_ifs <;> constructor <;> linarith

/-- Claim C5 (confirmed): the composite score computed by
`compute_composite` lies in `[0, 100]` for every event, with no restriction
on the indicator values; the weights are the code's fixed defaults
(0.45, 0.25, 0.20, 0.10) and the final `clip` absorbs any pre-clip
excursion outside the range. -/
theorem compute_composite_in_range (e : Event) :
    0 ≤ compute_composite e ∧ compute_composite e ≤ 100 := by
  unfold compute_composite
  exact clip_zero_hundred_bounds _

/-- One cursor action keeps the position between its old value and the
store length. -/
theorem cursor_step_mono (ud : Bool) (rc total : ℕ) (op : CursorOp)
    (c : Cursor) (h : c.pos ≤ total) :
    c.pos ≤ (cursor_step ud rc total op c).pos ∧
      (cursor_step ud rc total op c).pos ≤ total := by
  cases op <;> simp only [cursor_step] <;> try split_ifs
  all_goals simp_all

/-- Claim C4 (confirmed): across every sequence of tick, fast-forward,
Start and Stop actions on a fixed store of `total` rows, the cursor
position of `cursor_run` is monotonically non-decreasing and never exceeds
the store length; every advance is `min(position + increment, total)` with
a non-negative increment. -/
theorem cursor_monotone_bounded (ud : Bool) (rc total : ℕ)
    (ops : List CursorOp) (c : Cursor) (h : c.pos ≤ total) :
    c.pos ≤ (cursor_run ud rc total ops c).pos ∧
      (cursor_run ud rc total ops c).pos ≤ total := by
  induction ops generalizing c with
  | nil => exact ⟨le_refl _, h⟩
  | cons op ops ih =>
    have h1 := cursor_step_mono ud rc total op c h
    have h2 := ih (cursor_step ud rc total op c) h1.2
    exact ⟨le_trans h1.1 h2.1, h2.2⟩

/-- Witness for C4: a concrete run (fast-forward 30 minutes, then Start
and two one-minute ticks) on a 10-row one-region dense store never
retreats and stays within bounds. -/
theorem cursor_monotone_bounded_witness :
    (⟨0, false⟩ : Cursor).pos ≤
        (cursor_run true 1 10
          [CursorOp.fastForward 30, CursorOp.start, CursorOp.tick 1,
            CursorOp.tick 1] ⟨0, false⟩).pos ∧
      (cursor_run true 1 10
          [CursorOp.fastForward 30, CursorOp.start, CursorOp.tick 1,
            CursorOp.tick 1] ⟨0, false⟩).pos ≤ 10 :=
  cursor_monotone_bounded true 1 10
    [CursorOp.fastForward 30, CursorOp.start, CursorOp.tick 1,
      CursorOp.tick 1] ⟨0, false⟩ (by decide)

/-- Counterexample for C6: advancing "5 minutes" does not reveal the same
wall-clock span in both granularities.  With one region, 5 minutes map to
5 dense rows (a 5-minute span at one row per region per minute) but to 0
raw rows (a 0-minute span: 5 // 15 = 0 fifteen-minute steps), so the
claimed granularity-independence of the revealed span fails. -/
theorem minutes_to_rows_span_mismatch :
    minutes_to_rows true 5 1 = 5 ∧ minutes_to_rows false 5 1 = 0 ∧
      ¬((minutes_to_rows true 5 1 : ℚ) / 1 =
          15 * (minutes_to_rows false 5 1 : ℚ) / 1) := by
  refine ⟨rfl, rfl, ?_⟩
  norm_num [minutes_to_rows]

/-- Claim C6 (corrected): `rows_per_minute` is the claimed pure conversion
(`regionsCount` for dense data, `max(regionsCount // 15, 1)` for raw
data), and `minutes_to_rows` makes `m` minutes reveal a wall-clock span of
exactly `m` minutes in dense mode but `15 * (m // 15)` minutes in raw mode
(a raw store holds `r` rows per 15-minute step); the two spans agree
exactly when `m` is a multiple of the 15-minute native interval, not for
every `m`. -/
theorem minutes_to_rows_span_correct (m r : ℕ) (hr : 0 < r) :
    rows_per_minute true r = r ∧
      rows_per_minute false r = max (r / 15) 1 ∧
      (minutes_to_rows true m r : ℚ) / r = m ∧
      15 * (minutes_to_rows false m r : ℚ) / r = 15 * ((m / 15 : ℕ) : ℚ) ∧
      (15 ∣ m →
        (minutes_to_rows true m r : ℚ) / r =
          15 * (minutes_to_rows false m r : ℚ) / r) := by
  have hr0 : (r : ℚ) ≠ 0 := Nat.cast_ne_zero.mpr hr.ne'
  have hDense : (minutes_to_rows true m r : ℚ) / r = m := by
    simp only [minutes_to_rows, if_true]
    push_cast
    field_simp
  have hRaw : 15 * (minutes_to_rows false m r : ℚ) / r = 15 * ((m / 15 : ℕ) : ℚ) := by
    simp only [minutes_to_rows, if_false, Nat.max_eq_left (Nat.zero_le _)]
    push_cast
    field_simp
    ring
  refine ⟨rfl, rfl, hDense, hRaw, fun hdvd => ?_⟩
  rw [hDense, hRaw]
  have h2 : m / 15 * 15 = m := Nat.div_mul_cancel hdvd
  have h3 : ((m / 15 : ℕ) : ℚ) * 15 = (m : ℚ) := by exact_mod_cast h2
  linarith

/-- Witness for C6: with 2 regions and a 30-minute advance (a multiple of
the native interval), both granularities reveal a 30-minute span. -/
theorem minutes_to_rows_span_correct_witness :
    (minutes_to_rows true 30 2 : ℚ) / 2 =
      15 * (minutes_to_rows false 30 2 : ℚ) / 2 :=
  (minutes_to_rows_span_correct 30 2 (by norm_num)).2.2.2.2 (by norm_num)

/-- Counterexample for C8: in the one-region dense running state `s8`,
pressing Reset rewinds the cursor to 0 and halts, but the
preload-first-view block then advances the cursor to
`min(minutes_to_rows(10, 1), 1) = 1` before the pipeline reads it, so the
position observed by the pipeline is 1, not 0. -/
theorem reset_preload_counterexample :
    (preload (reset_state s8)).replay_index = 1 ∧
      ¬(preload (reset_state s8)).replay_index = 0 ∧
      (preload (reset_state s8)).running = false := by
  refine ⟨?_, ?_, ?_⟩ <;>
    simp [preload, reset_state, s8, regions_count, minutes_to_rows, evA0]

/-- Claim C8 (corrected): after Reset the cursor is halted
(`running = false`), but the position the pipeline observes is the preload
amount `min(minutes_to_rows(10, regions_count), store length)`, not 0; it
is 0 exactly when the preload row count is 0 (as in raw mode, where
10 // 15 = 0) or the working store is empty. -/
theorem reset_then_preload_position (s : AppState) :
    (preload (reset_state s)).running = false ∧
      (preload (reset_state s)).replay_index =
        min (minutes_to_rows s.use_dense 10 (regions_count s.df_work))
          s.df_work.length ∧
      ((preload (reset_state s)).replay_index = 0 ↔
        minutes_to_rows s.use_dense 10 (regions_count s.df_work) = 0 ∨
          s.df_work.length = 0) := by
  refine ⟨?_, ?_, ?_⟩ <;> simp [preload, reset_state]

/-- Claim C9 (confirmed): when no data has been revealed yet (the anchor
`now_timestamp` is null), the Inject handler reports the user-visible
warning "Start the replay first." and returns the state unchanged: no
event's fields are touched. -/
theorem inject_rejected_when_no_anchor (s : AppState) (region : String)
    (d m : ℚ) (h : now_timestamp s = none) :
    inject s region d m = (s, "Start the replay first.") := by
  simp [inject, h]

/-- Witness for C9: in the state `sNaT`, whose only timestamp is null,
injecting changes nothing and produces the warning. -/
theorem inject_rejected_when_no_anchor_witness :
    inject sNaT "A" 20 25 = (sNaT, "Start the replay first.") :=
  inject_rejected_when_no_anchor sNaT "A" 20 25
    (by simp [now_timestamp, min_timestamp, sNaT, evNaT])

/-- Claim C10 (confirmed): switching the active granularity through
`set_active_mode` makes the working store a copy of the originally cached
series for the selected granularity and rewinds the cursor to 0; the
result does not depend on the previous working store, so every prior
in-place mutation of it (injections, merged uploads) is discarded. -/
theorem set_active_mode_discards_mutations (s : AppState) (b : Bool)
    (l : List Event) :
    set_active_mode { s with df_work := l } b = set_active_mode s b ∧
      (set_active_mode s b).df_work = (if b then s.df_dense else s.df_raw) ∧
      (set_active_mode s b).replay_index = 0 := by
  cases b <;> simp [set_active_mode]

/-- `tail n` returns at most `n` rows. -/
theorem tailN_length_le (n : ℕ) (l : List Event) : (tailN n l).length ≤ n := by
  simp only [tailN, List.length_drop]
  omega

/-- `tail n` is a suffix of its input. -/
theorem tailN_suffix (n : ℕ) (l : List Event) : tailN n l <:+ l :=
  List.drop_suffix _ _

/-- `tail n` of at most `n` rows is the whole input. -/
theorem tailN_eq_of_le (n : ℕ) (l : List Event) (h : l.length ≤ n) :
    tailN n l = l := by
  simp only [tailN, Nat.sub_eq_zero_of_le h, List.drop_zero]

/-- The boolean alert filter holds exactly when the composite score
exceeds 80 or the raw risk exceeds 85. -/
theorem alert_qualifies_iff (e : Event) :
    alert_qualifies e = true ↔
      80 < compute_composite e ∨ 85 < e.risk_score := by
  simp [alert_qualifies]

/-- Counterexample for C2: the code's default thresholds are
`composite > 80 or risk > 85`, so the claim's example event with composite
exactly 76 and risk 50 does NOT qualify — `alerts` returns nothing for
it. -/
theorem alerts_composite76_not_selected :
    compute_composite ev76 = 76 ∧ ev76.risk_score = 50 ∧
      alerts [ev76] = [] := by
  refine ⟨?_, rfl, ?_⟩
  · norm_num [compute_composite, clip, ev76]
  · norm_num [alerts, tailN, alert_qualifies, compute_composite, clip, ev76]

/-- Claim C2 (corrected): the alert detector selects exactly the windowed
events with `composite > 80 or risk_score > 85` (the code's default
thresholds, not 75/80: composite 76 with risk 50 does not qualify, while
composite 81 or risk 86 does), and returns at most 10 of them, taken as
the trailing — most recent — block of the qualifying rows; when at most
10 rows qualify they are all returned. -/
theorem alerts_characterization (l : List Event) :
    (alerts l).length ≤ 10 ∧
      alerts l <:+ l.filter alert_qualifies ∧
      (∀ e ∈ alerts l, 80 < compute_composite e ∨ 85 < e.risk_score) ∧
      ((l.filter alert_qualifies).length ≤ 10 →
        alerts l = l.filter alert_qualifies) := by
  refine ⟨tailN_length_le _ _, tailN_suffix _ _, ?_, fun h => tailN_eq_of_le _ _ h⟩
  intro e he
  have h1 : e ∈ l.filter alert_qualifies := (tailN_suffix _ _).subset he
  have h2 : alert_qualifies e = true := (List.mem_filter.mp h1).2
  exact (alert_qualifies_iff e).mp h2

/-- Witness for C2: the concrete event `ev81` (composite exactly 81, risk
50) is a member of its own alerts list, and the characterization theorem
certifies that it breaches a threshold. -/
theorem alerts_characterization_witness :
    80 < compute_composite ev81 ∨ 85 < ev81.risk_score :=
  (alerts_characterization [ev81]).2.2.1 ev81
    (by norm_num [alerts, tailN, alert_qualifies, compute_composite, clip, ev81])

/-- `max_timestamp` is null exactly when every timestamp is null. -/
theorem max_timestamp_eq_none_iff (l : List Event) :
    max_timestamp l = none ↔ ∀ e ∈ l, e.timestamp = none := by
  induction l with
  | nil => simp [max_timestamp]
  | cons a l ih =>
    simp only [max_timestamp]
    cases ha : a.timestamp with
    | none =>
      cases hl : max_timestamp l with
      | none =>
        simp only [ha, hl, List.mem_cons, true_iff]
        intro e he
        rcases he with rfl | he'
        · exact ha
        · exact ih.mp hl e he'
      | some m =>
        simp only [ha, hl]
        constructor
        · intro h
          exact absurd h (by simp)
        · intro h
          rw [ih.mpr (fun e he => h e (List.mem_cons_of_mem a he))] at hl
          exact absurd hl (by simp)
    | some ta =>
      cases hl : max_timestamp l with
      | none => simp [ha, hl]
      | some m => simp [ha, hl]

/-- The non-null value of `max_timestamp` bounds every non-null timestamp
of the list from above. -/
theorem max_timestamp_ub (l : List Event) (m : ℚ)
    (hm : max_timestamp l = some m) :
    ∀ e ∈ l, ∀ t : ℚ, e.timestamp = some t → t ≤ m := by
  induction l generalizing m with
  | nil => simp [max_timestamp] at hm
  | cons a l ih =>
    intro e he t ht
    simp only [max_timestamp] at hm
    rcases List.mem_cons.mp he with rfl | he'
    · cases hl : max_timestamp l with
      | none =>
        rw [ht, hl] at hm
        simp only [Option.some.injEq] at hm
        exact le_of_eq hm
      | some m' =>
        rw [ht, hl] at hm
        simp only [Option.some.injEq] at hm
        exact hm ▸ le_max_left t m'
    · cases ha : a.timestamp with
      | none =>
        rw [ha] at hm
        cases hl : max_timestamp l with
        | none => rw [hl] at hm; exact absurd hm (by simp)
        | some m' =>
          rw [hl] at hm
          simp only [Option.some.injEq] at hm
          exact hm ▸ ih m' hl e he' t ht
      | some ta =>
        cases hl : max_timestamp l with
        | none =>
          have := (max_timestamp_eq_none_iff l).mp hl e he'
          rw [this] at ht
          exact absurd ht (by simp)
        | some m' =>
          rw [ha, hl] at hm
          simp only [Option.some.injEq] at hm
          exact le_trans (ih m' hl e he' t ht) (hm ▸ le_max_right ta m')

/-- The non-null value of `max_timestamp` is attained by some event of the
list. -/
theorem max_timestamp_attained (l : List Event) (m : ℚ)
    (hm : max_timestamp l = some m) :
    ∃ e ∈ l, e.timestamp = some m := by
  induction l generalizing m with
  | nil => simp [max_timestamp] at hm
  | cons a l ih =>
    simp only [max_timestamp] at hm
    cases ha : a.timestamp with
    | none =>
      rw [ha] at hm
      obtain ⟨e, he, het⟩ := ih m hm
      exact ⟨e, List.mem_cons_of_mem a he, het⟩
    | some ta =>
      cases hl : max_timestamp l with
      | none =>
        rw [ha, hl] at hm
        simp only [Option.some.injEq] at hm
        exact ⟨a, List.mem_cons_self a l, hm ▸ ha⟩
      | some m' =>
        rw [ha, hl] at hm
        simp only [Option.some.injEq] at hm
        rcases le_total ta m' with hle | hle
        · obtain ⟨e, he, het⟩ := ih m' hl
          rw [max_eq_right hle] at hm
          exact ⟨e, List.mem_cons_of_mem a he, hm ▸ het⟩
        · rw [max_eq_left hle] at hm
          exact ⟨a, List.mem_cons_self a l, hm ▸ ha⟩

/-- Claim C3 (confirmed): for a non-empty revealed prefix and any window
size `W`, when some timestamp is non-null the filter of `select_window`
keeps exactly the events whose timestamp `t` satisfies `tMax - W ≤ t`,
where `tMax = max_timestamp` is attained in the prefix and bounds every
non-null timestamp; rows with null timestamps drop out, no kept row is
older than the bound, and every row at or after the bound is kept.  When
every timestamp is null the prefix passes through unchanged. -/
theorem select_window_correct (l : List Event) (W : ℚ) (_hne : l ≠ []) :
    (∀ tMax : ℚ, max_timestamp l = some tMax →
      (∃ e ∈ l, e.timestamp = some tMax) ∧
        (∀ e ∈ l, ∀ t : ℚ, e.timestamp = some t → t ≤ tMax) ∧
        (∀ e ∈ select_window l W,
          e ∈ l ∧ ∃ t : ℚ, e.timestamp = some t ∧ tMax - W ≤ t) ∧
        (∀ e ∈ l, ∀ t : ℚ, e.timestamp = some t → tMax - W ≤ t →
          e ∈ select_window l W)) ∧
      (max_timestamp l = none → select_window l W = l) := by
  constructor
  · intro tMax hm
    have hsel : select_window l W =
        l.filter (fun e =>
          match e.timestamp with
          | some t => decide (tMax - W ≤ t)
          | none => false) := by
      simp only [select_window, hm]
    refine ⟨max_timestamp_attained l tMax hm, max_timestamp_ub l tMax hm, ?_, ?_⟩
    · intro e he
      rw [hsel] at he
      obtain ⟨hel, hp⟩ := List.mem_filter.mp he
      refine ⟨hel, ?_⟩
      cases ht : e.timestamp with
      | none => rw [ht] at hp; exact absurd hp (by simp)
      | some t =>
        rw [ht] at hp
        exact ⟨t, rfl, of_decide_eq_true hp⟩
    · intro e hel t ht hw
      rw [hsel]
      refine List.mem_filter.mpr ⟨hel, ?_⟩
      rw [ht]
      exact decide_eq_true hw
  · intro hm
    simp only [select_window, hm]

/-- Witness for C3: in the two-row prefix `[evA0, evA5]` with a 3-minute
window, `tMax = 5` and the row at minute 5 is kept. -/
theorem select_window_correct_witness :
    evA5 ∈ select_window [evA0, evA5] 3 :=
  (((select_window_correct [evA0, evA5] 3 (by simp)).1 5
      (by norm_num [max_timestamp, evA0, evA5])).2.2.2) evA5 (by simp) 5 rfl
    (by norm_num)

/-- Row `i` of the working store after a successfully anchored injection:
the original row, passed through the hotspot update when it matches the
(region, time-interval) mask. -/
theorem inject_df_work_getElem (s : AppState) (region : String)
    (d m t0 : ℚ) (h : now_timestamp s = some t0) (i : ℕ) :
    (inject s region d m).1.df_work[i]? =
      (s.df_work[i]?).map (fun e =>
        if matches_inject region t0 (t0 + d) e then apply_hotspot m e
        else e) := by
  simp only [inject, h]
  exact List.getElem?_map _ _ _

/-- Counterexample for C1: in state `s1` the cursor has revealed only row
0, yet injecting magnitude 25 into region "A" also rewrites row 1 — an
event at offset `1 ≥ replay_index` — because the mask filters the entire
working store by region and time, not by cursor offset. -/
theorem inject_affects_unrevealed_rows :
    s1.replay_index = 1 ∧ s1.df_work[1]? = some evA5 ∧
      (inject s1 "A" 20 25).1.df_work[1]? = some (apply_hotspot 25 evA5) ∧
      apply_hotspot 25 evA5 ≠ evA5 := by
  refine ⟨rfl, rfl, ?_, ?_⟩
  · norm_num [inject, now_timestamp, s1, evA0, evA5, matches_inject,
      apply_hotspot, clip]
  · norm_num [apply_hotspot, clip, evA5, Event.mk.injEq]

/-- Claim C1 (corrected): with a non-null anchor `t0`, injection updates
exactly the rows of the entire working store matching the requested region
and the interval `[t0, t0 + duration]`, regardless of whether they lie
before or beyond the cursor: every matching row (revealed or not) receives
the hotspot deltas and every non-matching row is unchanged; the store
keeps its length. -/
theorem inject_updates_matching_rows_everywhere (s : AppState)
    (region : String) (d m t0 : ℚ) (h : now_timestamp s = some t0) :
    (inject s region d m).1.df_work.length = s.df_work.length ∧
      ∀ i : ℕ, ∀ e : Event, s.df_work[i]? = some e →
        (matches_inject region t0 (t0 + d) e = false →
          (inject s region d m).1.df_work[i]? = some e) ∧
        (matches_inject region t0 (t0 + d) e = true →
          (inject s region d m).1.df_work[i]? =
            some (apply_hotspot m e)) := by
  constructor
  · simp [inject, h]
  · intro i e hi
    constructor <;> intro hmatch <;>
      rw [inject_df_work_getElem s region d m t0 h i, hi] <;>
      simp [hmatch]

/-- Witness for C1 (amended): in `s1`, the matching revealed row 0 receives
the hotspot deltas. -/
theorem inject_updates_matching_rows_everywhere_witness :
    (inject s1 "A" 20 25).1.df_work[0]? = some (apply_hotspot 25 evA0) :=
  ((inject_updates_matching_rows_everywhere s1 "A" 20 25 0
      (by norm_num [now_timestamp, s1, evA0])).2 0 evA0 rfl).2
    (by norm_num [matches_inject, evA0])

/-- For a non-negative input, clipping to `[0, 100]` is capping at 100. -/
theorem clip_eq_min_of_nonneg (x : ℚ) (h : 0 ≤ x) :
    clip x 0 100 = min x 100 := by
  unfold clip
  split_ifs with h1 h2
  · linarith
  · exact (min_eq_right h2.le).symm
  · exact (min_eq_left (not_lt.mp h2)).symm

/-- For an input at most 100, clipping to `[0, 100]` is flooring at 0. -/
theorem clip_eq_max_of_le (x : ℚ) (h : x ≤ 100) :
    clip x 0 100 = max x 0 := by
  unfold clip
  split_ifs with h1 h2
  · exact (max_eq_right h1.le).symm
  · linarith
  · exact (max_eq_left (not_lt.mp h1)).symm

/-- Counterexample for C7: the code clips `supply_pressure` to `[0, 100]`
on both sides, so for a matching row with supply pressure 200 and
magnitude 25 the result is 100, while the claim's formula
`max(supply_pressure - 0.4*M, 0)` gives 190. -/
theorem inject_supply_clip_counterexample :
    ((inject s7 "A" 20 25).1.df_work[0]?).map Event.supply_pressure =
        some 100 ∧
      max ((200 : ℚ) - 25 * 0.4) 0 = 190 ∧ (100 : ℚ) ≠ 190 := by
  refine ⟨?_, ?_, by norm_num⟩
  · norm_num [inject, now_timestamp, s7, evHiSupply, matches_inject,
      apply_hotspot, clip]
  · rw [max_eq_left (by norm_num : (0 : ℚ) ≤ 200 - 25 * 0.4)]
    norm_num

/-- Claim C7 (corrected): each matching row's update clips all three
fields to `[0, 100]` on both sides; for rows within the nominal range
(`risk_score ≥ 0`, `supply_pressure ≤ 100`, `morale_index ≤ 100`) and a
non-negative magnitude `M` this coincides with the claimed formulas
`risk = min(risk + M, 100)`, `supply = max(supply - 0.4M, 0)`,
`morale = max(morale - 0.2M, 0)` — magnitude 25 giving risk+25 capped at
100, supply-10 and morale-5 floored at 0 — but on out-of-range rows the
upper clip of supply/morale departs from the claimed one-sided `max`. -/
theorem inject_delta_formulas_in_range (s : AppState) (region : String)
    (d m t0 : ℚ) (i : ℕ) (e : Event) (h : now_timestamp s = some t0)
    (hi : s.df_work[i]? = some e)
    (hmatch : matches_inject region t0 (t0 + d) e = true)
    (hr : 0 ≤ e.risk_score) (hs : e.supply_pressure ≤ 100)
    (hmo : e.morale_index ≤ 100) (hb : 0 ≤ m) :
    (inject s region d m).1.df_work[i]? = some
      { e with
        risk_score := min (e.risk_score + m) 100
        supply_pressure := max (e.supply_pressure - m * 0.4) 0
        morale_index := max (e.morale_index - m * 0.2) 0 } := by
  rw [inject_df_work_getElem s region d m t0 h i, hi]
  have h1 : clip (e.risk_score + m) 0 100 = min (e.risk_score + m) 100 :=
    clip_eq_min_of_nonneg _ (by linarith)
  have h2 : clip (e.supply_pressure - m * 0.4) 0 100 =
      max (e.supply_pressure - m * 0.4) 0 :=
    clip_eq_max_of_le _ (by linarith)
  have h3 : clip (e.morale_index - m * 0.2) 0 100 =
      max (e.morale_index - m * 0.2) 0 :=
    clip_eq_max_of_le _ (by linarith)
  simp [apply_hotspot, hmatch, h1, h2, h3]

/-- Witness for C7 (amended): the nominal-range row `evA0` under magnitude
25 gets exactly the claimed min/max update. -/
theorem inject_delta_formulas_in_range_witness :
    (inject s1 "A" 20 25).1.df_work[0]? = some
      { evA0 with
        risk_score := min (evA0.risk_score + 25) 100
        supply_pressure := max (evA0.supply_pressure - 25 * 0.4) 0
        morale_index := max (evA0.morale_index - 25 * 0.2) 0 } :=
  inject_delta_formulas_in_range s1 "A" 20 25 0 0 evA0
    (by norm_num [now_timestamp, s1, evA0]) rfl
    (by norm_num [matches_inject, evA0])
    (by norm_num [evA0]) (by norm_num [evA0]) (by norm_num [evA0])
    (by norm_num)

end ConflictDemo
